import Mathlib

/-!
Verification of the departure display engine of the bvg-departures repository.

The definitions below are a shallow embedding of the Rust sources:
  * src/view/mod.rs      — product symbol/color resolution and the shared
    display-entry builder (the Display Transformer);
  * src/view/std_out.rs  — the plain stdout renderer's delay annotation;
  * src/view/tui.rs      — the interactive controller: log buffer, event
    loop, teardown, and its delay annotation;
  * src/api/departures.rs — the raw departure data model and the
    direction filter applied at the API boundary;
  * src/main.rs          — CLI flag handling and renderer selection.

Machine integers (Rust i64) are modelled as Int; Rust integer division
`/` truncates toward zero and is therefore modelled by Int.tdiv.
Timestamps (chrono DateTime with Utc) are modelled as Int nanoseconds, so
chrono TimeDelta.num_seconds (whole seconds, truncated toward zero) is
Int.tdiv by 1000000000.
-/

namespace BVG

/-- Character-list prefix test, mirroring byte-wise substring search of
Rust str.starts_with at one position. -/
def startsWithChars : List Char → List Char → Bool
  | [], _ => true
  | _ :: _, [] => false
  | a :: as, b :: bs => a == b && startsWithChars as bs

/-- Character-list substring test, mirroring Rust str.contains
(needle first argument). -/
def containsChars (pat : List Char) : List Char → Bool
  | [] => startsWithChars pat []
  | s@(_ :: tl) => startsWithChars pat s || containsChars pat tl

/-- Rust str.contains: does s contain pat as a contiguous substring? -/
def strContains (s pat : String) : Bool :=
  containsChars pat.toList s.toList

/-- src/view/mod.rs lines 1-9: glyph for a raw product string, chosen by
case-sensitive substring match in order subway, suburban, bus, tram,
first match wins, anything else gets the rocket. -/
def product_symbol (product : String) : String :=
  if strContains product "subway" then "🚇"
  else if strContains product "suburban" then "🚆"
  else if strContains product "bus" then "🚌"
  else if strContains product "tram" then "🚃"
  else "🚀"

/-- src/view/mod.rs lines 11-19: hex color for a raw product string; the
same match structure as product_symbol. -/
def product_hex (product : String) : String :=
  if strContains product "subway" then "#00539F"
  else if strContains product "suburban" then "#00854A"
  else if strContains product "bus" then "#95276E"
  else if strContains product "tram" then "#BE1414"
  else "#00FFFF"

/-- The five product categories of the specification. The code has no
explicit category type; this names the five joint outcomes of the
product_symbol / product_hex match structure. -/
inductive ProductCategory where
  | subway
  | suburban
  | bus
  | tram
  | other
deriving DecidableEq

/-- The common match structure shared by product_symbol and product_hex,
factored out as a category-valued function. -/
def product_category (product : String) : ProductCategory :=
  if strContains product "subway" then ProductCategory.subway
  else if strContains product "suburban" then ProductCategory.suburban
  else if strContains product "bus" then ProductCategory.bus
  else if strContains product "tram" then ProductCategory.tram
  else ProductCategory.other

/-- Glyph assigned to each category (values from src/view/mod.rs lines 3-7). -/
def categorySymbol : ProductCategory → String
  | ProductCategory.subway => "🚇"
  | ProductCategory.suburban => "🚆"
  | ProductCategory.bus => "🚌"
  | ProductCategory.tram => "🚃"
  | ProductCategory.other => "🚀"

/-- Hex color assigned to each category (values from src/view/mod.rs lines 13-17). -/
def categoryHex : ProductCategory → String
  | ProductCategory.subway => "#00539F"
  | ProductCategory.suburban => "#00854A"
  | ProductCategory.bus => "#95276E"
  | ProductCategory.tram => "#BE1414"
  | ProductCategory.other => "#00FFFF"

/-- ASCII lowercase of a single character (identity elsewhere). -/
def toLowerAscii (c : Char) : Char :=
  if 'A' ≤ c ∧ c ≤ 'Z' then Char.ofNat (c.toNat + 32) else c

/-- Case-insensitive substring test. This follows the SPEC's words
("case-insensitive substring match"), not the code: both strings are
ASCII-lowercased before the match. Used only to compare the claimed
behavior with the code's behavior. -/
def strContainsCI (s pat : String) : Bool :=
  containsChars (pat.toList.map toLowerAscii) (s.toList.map toLowerAscii)

/-- Category resolution as the SPEC claims it (case-insensitive), for
comparison with product_category, which embeds the code. -/
def specProductCategoryCI (product : String) : ProductCategory :=
  if strContainsCI product "subway" then ProductCategory.subway
  else if strContainsCI product "suburban" then ProductCategory.suburban
  else if strContainsCI product "bus" then ProductCategory.bus
  else if strContainsCI product "tram" then ProductCategory.tram
  else ProductCategory.other

/-- src/api/departures.rs lines 101-112: the fields of a line record that
are read downstream. -/
structure Line where
  name : Option String
  mode : Option String
  product : Option String
deriving DecidableEq

/-- src/api/departures.rs lines 70-97: a raw departure. Timestamps are
Int nanoseconds; delay is Int seconds; the fields not read by the
display pipeline or the filter are omitted. -/
structure Departure where
  direction : Option String
  line : Option Line
  when : Option Int
  planned_when : Option Int
  delay : Option Int
deriving DecidableEq

/-- src/api/departures.rs lines 62-66: envelope of departures per stop. -/
structure DeparturesResponse where
  departures : List Departure
  realtime_data_updated_at : Option Int
deriving DecidableEq

/-- src/view/mod.rs lines 22-29: the renderer-agnostic display entry. -/
structure DisplayEntry where
  line : String
  dir : String
  actual_mins : Int
  delay_mins : Option Int
  symbol : String
  hex : String
deriving DecidableEq

/-- Nanoseconds per second. -/
def nsPerSec : Int := 1000000000

/-- chrono TimeDelta.num_seconds: whole seconds of a nanosecond duration,
truncated toward zero. -/
def num_seconds (d : Int) : Int := Int.tdiv d nsPerSec

/-- The loop body of src/view/mod.rs lines 39-71: one raw departure to
one display entry, given the sampled current time (the source samples
Utc.now at this point; the sample is the now argument here). -/
def departureEntry (now : Int) (d : Departure) : DisplayEntry :=
  { line := ((d.line.bind Line.name).getD "?")
    dir := (d.direction.getD "")
    actual_mins := max ((d.when.map (fun w => Int.tdiv (num_seconds (w - now)) 60)).getD 0) 0
    delay_mins := d.delay.map (fun x => Int.tdiv x 60)
    symbol := product_symbol ((d.line.bind Line.product).getD "")
    hex := product_hex ((d.line.bind Line.product).getD "") }

/-- src/view/mod.rs lines 31-76: build_display_lines, the Display
Transformer over the per-station response list. -/
def build_display_lines (now : Int) (resp : List (String × DeparturesResponse)) :
    List (String × List DisplayEntry) :=
  resp.map (fun p => (p.1, p.2.departures.map (departureEntry now)))

/-- Rust format specifier {:+} on an i64: a sign character, always
explicit, followed by the decimal digits of the absolute value. -/
def fmtPlus (d : Int) : String :=
  if 0 ≤ d then "+" ++ toString d else "-" ++ toString (-d)

/-- src/view/std_out.rs lines 28-31: the delay annotation of the plain
renderer: " ({:+}min)" when delay_mins is Some d with d nonzero, empty
otherwise. -/
def stdoutDelayText (delay_mins : Option Int) : String :=
  match delay_mins with
  | some d => if d ≠ 0 then " (" ++ fmtPlus d ++ "min)" else ""
  | none => ""

/-- src/view/tui.rs lines 205-208: the delay annotation of the TUI
renderer (textually the same computation as the stdout one). -/
def tuiDelayText (delay_mins : Option Int) : String :=
  match delay_mins with
  | some d => if d ≠ 0 then " (" ++ fmtPlus d ++ "min)" else ""
  | none => ""

/-- The while-loop of LogBuffer.push_line (src/view/tui.rs lines 49-51):
pop the front while the length exceeds max_lines. The deque is a list,
front (oldest) first. -/
def trimFront (max_lines : Nat) : List String → List String
  | [] => []
  | x :: xs => if max_lines < xs.length + 1 then trimFront max_lines xs else x :: xs

/-- src/view/tui.rs lines 46-52: LogBuffer.push_line — push the line at
the back, then evict from the front while over capacity. -/
def push_line (max_lines : Nat) (lines : List String) (line : String) : List String :=
  trimFront max_lines (lines ++ [line])

/-- src/view/tui.rs lines 54-57: LogBuffer.snapshot — a copy of the held
lines, front (oldest) first, hence most-recent-last. -/
def snapshot (lines : List String) : List String := lines

/-- A sequence of push_line calls starting from a buffer state. -/
def pushAll (max_lines : Nat) (lines : List String) (new : List String) : List String :=
  new.foldl (push_line max_lines) lines

/-- src/main.rs lines 20-29: the per-stop configuration read downstream
by the filter (id and look_ahead are not consulted there). -/
structure InputStop where
  id : String
  name : String
  look_ahead : Nat
  directions : List String

/-- src/api/departures.rs lines 198-211: the retain closure of
BvgClient.filter. -/
def retainDeparture (s : InputStop) (d : Departure) : Bool :=
  if s.directions.isEmpty then true
  else
    match d.direction with
    | some real_direction =>
        s.directions.any (fun input_direction => strContains real_direction input_direction)
    | none => true

/-- src/api/departures.rs lines 198-211: BvgClient.filter, keeping only
the departures the retain closure accepts (in-place retain modelled as a
new response). -/
def BvgClient.filter (s : InputStop) (response : DeparturesResponse) : DeparturesResponse :=
  { departures := response.departures.filter (retainDeparture s)
    realtime_data_updated_at := response.realtime_data_updated_at }

/-- The two renderer entry points selectable in src/main.rs lines 69-85. -/
inductive DisplayKind where
  | stdoutDisplay
  | tuiDisplay
deriving DecidableEq

/-- src/main.rs lines 40-43: the value of Cli.tui. The clap attributes
are long, action (SetTrue: the flag takes no value and sets true when
present) and default_value "true" (parsed to true when the flag is
absent). -/
def cliTuiValue (flagPresent : Bool) : Bool :=
  if flagPresent then true else true

/-- src/main.rs lines 69-85: which display implementation main builds
and runs, given the value of args.tui. -/
def selectDisplay (tui : Bool) : DisplayKind :=
  if tui then DisplayKind.tuiDisplay else DisplayKind.stdoutDisplay

/-- The key codes distinguished by the event loop of TuiDisplay.display
(src/view/tui.rs lines 127-150). -/
inductive KeyChar where
  | q
  | esc
  | c
  | l
  | r
  | otherKey
deriving DecidableEq

/-- A terminal event as read by crossterm event.read: a key with its
CONTROL-modifier bit, a resize, or any other event kind (the resize
dimensions are not consulted by the loop). -/
inductive TermEvent where
  | key (code : KeyChar) (ctrl : Bool)
  | resize
  | otherEvent
deriving DecidableEq

/-- The observable side effects of TuiDisplay.display, in order:
terminal setup, fetches, renders (recording the model rendered), the
sample log line of the l key, and the two teardown steps. -/
inductive Action (M : Type) where
  | enableRaw
  | enterAlt
  | fetchCall
  | renderCall (m : M)
  | logInfo
  | disableRaw
  | leaveAlt
deriving DecidableEq

/-- Is this action the disable-raw-mode teardown step? -/
def isDisableRaw {M : Type} : Action M → Bool
  | Action.disableRaw => true
  | _ => false

/-- Is this action the leave-alternate-screen teardown step? -/
def isLeaveAlt {M : Type} : Action M → Bool
  | Action.leaveAlt => true
  | _ => false

/-- Outcome of the event loop: broke out via a quit key, propagated an
error with ?, or is still blocked waiting for the next event (the event
list ran out). -/
inductive Outcome (E : Type) where
  | ok
  | err (e : E)
  | blocked
deriving DecidableEq

/-- The event loop of TuiDisplay.display (src/view/tui.rs lines
127-150). fetch and render are oracles indexed by call count: fetch
models api_client.get_departures (its Ok value is the processed
display-lines model), render models Self.render (whose errors come from
terminal drawing). Returns the actions performed inside the loop and
the outcome. A ? on a fetch or render error ends the loop with that
error; a quit key (q, Esc, or Ctrl+C) breaks out with ok. -/
def loopSteps {E M : Type} (fetch : Nat → Except E M) (render : Nat → Except E Unit) :
    List TermEvent → M → Nat → Nat → List (Action M) × Outcome E
  | [], _, _, _ => ([], Outcome.blocked)
  | ev :: evs, model, fi, ri =>
    match ev with
    | TermEvent.key code ctrl =>
      if code = KeyChar.q ∨ code = KeyChar.esc then ([], Outcome.ok)
      else if code = KeyChar.c ∧ ctrl = true then ([], Outcome.ok)
      else if code = KeyChar.l then
        match render ri with
        | Except.error e => ([Action.logInfo, Action.renderCall model], Outcome.err e)
        | Except.ok _ =>
          let rest := loopSteps fetch render evs model fi (ri + 1)
          (Action.logInfo :: Action.renderCall model :: rest.1, rest.2)
      else if code = KeyChar.r then
        match fetch fi with
        | Except.error e => ([Action.fetchCall], Outcome.err e)
        | Except.ok m2 =>
          match render ri with
          | Except.error e => ([Action.fetchCall, Action.renderCall m2], Outcome.err e)
          | Except.ok _ =>
            let rest := loopSteps fetch render evs m2 (fi + 1) (ri + 1)
            (Action.fetchCall :: Action.renderCall m2 :: rest.1, rest.2)
      else loopSteps fetch render evs model fi ri
    | TermEvent.resize =>
      match render ri with
      | Except.error e => ([Action.renderCall model], Outcome.err e)
      | Except.ok _ =>
        let rest := loopSteps fetch render evs model fi (ri + 1)
        (Action.renderCall model :: rest.1, rest.2)
    | TermEvent.otherEvent => loopSteps fetch render evs model fi ri

/-- src/view/tui.rs lines 113-158: TuiDisplay.display. Setup (enable
raw mode, enter the alternate screen), initial fetch and render, the
event loop, and — only on the ok path after the loop breaks — the two
teardown steps. Every ? error return skips the teardown. -/
def TuiDisplay.display {E M : Type} (fetch : Nat → Except E M)
    (render : Nat → Except E Unit) (events : List TermEvent) :
    List (Action M) × Outcome E :=
  let setup := [Action.enableRaw, Action.enterAlt]
  match fetch 0 with
  | Except.error e => (setup ++ [Action.fetchCall], Outcome.err e)
  | Except.ok m0 =>
    match render 0 with
    | Except.error e => (setup ++ [Action.fetchCall, Action.renderCall m0], Outcome.err e)
    | Except.ok _ =>
      let res := loopSteps fetch render events m0 1 1
      match res.2 with
      | Outcome.ok =>
        (setup ++ Action.fetchCall :: Action.renderCall m0 :: res.1 ++
          [Action.disableRaw, Action.leaveAlt], Outcome.ok)
      | out => (setup ++ Action.fetchCall :: Action.renderCall m0 :: res.1, out)

/-- Concrete fetch oracle: first call succeeds with model 0, every later
call fails with error 7. -/
def exFetch : Nat → Except Nat Nat :=
  fun i => if i = 0 then Except.ok 0 else Except.error 7

/-- Concrete fetch oracle that always succeeds with model 5. -/
def exFetchOk : Nat → Except Nat Nat := fun _ => Except.ok 5

/-- Concrete render oracle that never fails. -/
def exRenderOk : Nat → Except Nat Unit := fun _ => Except.ok ()

/-- Concrete departure: no realtime estimate, scheduled 600 s in the
future, no other data. -/
def depPlannedOnly : Departure :=
  { direction := none
    line := none
    when := none
    planned_when := some (600 * nsPerSec)
    delay := none }

/-- Concrete departure: realtime estimate one hour in the past. -/
def depPast : Departure :=
  { direction := none
    line := none
    when := some (-(3600 * nsPerSec))
    planned_when := none
    delay := none }

/-- Concrete departure: realtime estimate 600 s in the future. -/
def depFuture : Departure :=
  { direction := none
    line := none
    when := some (600 * nsPerSec)
    planned_when := some (540 * nsPerSec)
    delay := some 60 }

/-- Concrete departure carrying a negative delay of 90 seconds. -/
def depNegDelay : Departure :=
  { direction := none
    line := none
    when := none
    planned_when := none
    delay := some (-90) }

/-- Concrete single-station response built from depPast. -/
def respPast : List (String × DeparturesResponse) :=
  [( "S", { departures := [depPast], realtime_data_updated_at := none })]

theorem sixty_ns_eq : (60 : Int) * nsPerSec = 60000000000 := by
  norm_num [nsPerSec]

/-- Truncating division by 60 versus floor division by 60: they agree on
nonnegative arguments and on multiples of 60, and differ by one
otherwise. -/
theorem tdiv_sixty_eq_fdiv (x : Int) :
    Int.tdiv x 60 =
      if 0 ≤ x ∨ (60 : Int) ∣ x then Int.fdiv x 60 else Int.fdiv x 60 + 1 := by
  have hf : Int.fdiv x 60 = x / 60 := Int.fdiv_eq_ediv x (by decide)
  rcases le_or_lt 0 x with hx | hx
  · rw [Int.tdiv_eq_ediv hx (by decide), if_pos (Or.inl hx), hf]
  · have h1 : Int.tdiv (-x) 60 = (-x) / 60 := Int.tdiv_eq_ediv (by omega) (by decide)
    have h2 : Int.tdiv x 60 = -((-x) / 60) := by
      rw [← h1, Int.neg_tdiv, Int.neg_neg]
    by_cases hd : (60 : Int) ∣ x
    · rw [h2, hf, if_pos (Or.inr hd)]
      omega
    · have hcond : ¬(0 ≤ x ∨ (60 : Int) ∣ x) := by
        rintro (h | h)
        · omega
        · exact hd h
      rw [h2, hf, if_neg hcond]
      omega

/-- After the final clamp at zero, the code's doubly truncated minute
count (whole seconds toward zero, then toward-zero division by 60)
equals the clamped floor of the nanosecond difference over one minute. -/
theorem clamped_minutes_eq_floor (t : Int) :
    max (Int.tdiv (num_seconds t) 60) 0 = max 0 (Int.fdiv t (60 * nsPerSec)) := by
  have hfd : Int.fdiv t (60 * nsPerSec) = t / 60000000000 := by
    rw [sixty_ns_eq]
    exact Int.fdiv_eq_ediv t (by decide)
  rcases le_or_lt 0 t with ht | ht
  · have h1 : num_seconds t = t / 1000000000 := by
      unfold num_seconds nsPerSec
      exact Int.tdiv_eq_ediv ht (by decide)
    have h2 : (0 : Int) ≤ t / 1000000000 := Int.ediv_nonneg ht (by decide)
    have h3 : Int.tdiv (t / 1000000000) 60 = (t / 1000000000) / 60 :=
      Int.tdiv_eq_ediv h2 (by decide)
    have h4 : (t / 1000000000) / 60 = t / 60000000000 := by omega
    rw [h1, h3, h4, hfd, max_comm]
  · have h1 : num_seconds t = -((-t) / 1000000000) := by
      unfold num_seconds nsPerSec
      rw [← Int.tdiv_eq_ediv (by omega : (0 : Int) ≤ -t) (by decide), Int.neg_tdiv, Int.neg_neg]
    have h2 : (0 : Int) ≤ (-t) / 1000000000 := Int.ediv_nonneg (by omega) (by decide)
    have h3 : Int.tdiv (-((-t) / 1000000000)) 60 = -(Int.tdiv ((-t) / 1000000000) 60) :=
      Int.neg_tdiv _ 60
    have h4 : Int.tdiv ((-t) / 1000000000) 60 = ((-t) / 1000000000) / 60 :=
      Int.tdiv_eq_ediv h2 (by decide)
    have h5 : (0 : Int) ≤ ((-t) / 1000000000) / 60 := Int.ediv_nonneg h2 (by decide)
    have h6 : t / 60000000000 ≤ 0 := by omega
    rw [h1, h3, h4, hfd, max_eq_right (by omega), max_eq_left h6]

/-- Claim C1 (amended): the minutes-until-departure of a transformed
departure equals max(0, floor((when − now) / 60 s)) computed from the
realtime field when alone; if when is absent the value is 0, regardless
of planned_when — the scheduled time is never consulted. -/
theorem c1_minutes (now : Int) (d : Departure) :
    (d.when = none → (departureEntry now d).actual_mins = 0) ∧
    (∀ w, d.when = some w →
      (departureEntry now d).actual_mins = max 0 (Int.fdiv (w - now) (60 * nsPerSec))) := by
  constructor
  · intro h
    simp [departureEntry, h]
  · intro w hw
    simp only [departureEntry, hw, Option.map_some, Option.getD_some]
    exact clamped_minutes_eq_floor (w - now)

/-- Witness for c1_minutes at now = 0 and a departure whose realtime
estimate lies 600 s in the future: the entry shows the clamped floor. -/
theorem c1_minutes_witness :
    (departureEntry 0 depFuture).actual_mins =
      max 0 (Int.fdiv (600 * nsPerSec - 0) (60 * nsPerSec)) :=
  (c1_minutes 0 depFuture).2 (600 * nsPerSec) rfl

/-- Counterexample to claim C1 as stated: a departure with no realtime
estimate and a scheduled time 600 s in the future. The claimed
effective-time fallback gives floor(600 s / 60 s) = 10 minutes, but the
code produces 0 because it only ever reads the realtime field. -/
theorem c1_counterexample :
    (departureEntry 0 depPlannedOnly).actual_mins = 0 ∧
    depPlannedOnly.when = none ∧
    depPlannedOnly.planned_when = some (600 * nsPerSec) ∧
    Int.fdiv (600 * nsPerSec - 0) (60 * nsPerSec) = 10 ∧
    (0 : Int) ≠ 10 := by
  refine ⟨rfl, rfl, rfl, by decide, by decide⟩

/-- Claim C7 (amended): when delay_seconds is present the transformed
delay-in-minutes is delay_seconds / 60 rounded toward zero — equal to
floor(delay_seconds / 60) when the delay is nonnegative or a multiple of
60, and to floor + 1 otherwise; when delay_seconds is absent it is
absent. -/
theorem c7_delay (now : Int) (d : Departure) :
    (d.delay = none → (departureEntry now d).delay_mins = none) ∧
    (∀ x, d.delay = some x →
      (departureEntry now d).delay_mins =
        some (if 0 ≤ x ∨ (60 : Int) ∣ x then Int.fdiv x 60 else Int.fdiv x 60 + 1)) := by
  constructor
  · intro h
    simp [departureEntry, h]
  · intro x hx
    simp [departureEntry, hx, tdiv_sixty_eq_fdiv]

/-- Witness for c7_delay at a departure with a delay of 60 s: one
minute. -/
theorem c7_delay_witness :
    (departureEntry 0 depFuture).delay_mins =
      some (if 0 ≤ (60 : Int) ∨ (60 : Int) ∣ 60 then Int.fdiv 60 60 else Int.fdiv 60 60 + 1) :=
  (c7_delay 0 depFuture).2 60 rfl

/-- Counterexample to claim C7 as stated: at delay_seconds = −90 the
code computes −90 / 60 truncated toward zero, which is −1, while
floor(−90 / 60) = −2. -/
theorem c7_counterexample :
    (departureEntry 0 depNegDelay).delay_mins = some (-1) ∧
    Int.fdiv (-90) 60 = -2 ∧
    some (-1 : Int) ≠ some (-2 : Int) := by
  refine ⟨rfl, by decide, by decide⟩

/-- Claim C8: every display entry produced by the transformer has a
non-negative minutes-until-departure, whatever the input timestamps. -/
theorem c8_minutes_nonneg (now : Int) (resp : List (String × DeparturesResponse))
    (g : String × List DisplayEntry) (hg : g ∈ build_display_lines now resp)
    (e : DisplayEntry) (he : e ∈ g.2) : 0 ≤ e.actual_mins := by
  simp only [build_display_lines, List.mem_map] at hg
  obtain ⟨p, _, rfl⟩ := hg
  simp only [List.mem_map] at he
  obtain ⟨d, _, rfl⟩ := he
  simp only [departureEntry]
  exact le_max_right _ 0

/-- Witness for c8_minutes_nonneg on a departure one hour in the past. -/
theorem c8_minutes_nonneg_witness : 0 ≤ (departureEntry 0 depPast).actual_mins :=
  c8_minutes_nonneg 0 respPast ( "S", [departureEntry 0 depPast])
    (by simp [build_display_lines, respPast])
    (departureEntry 0 depPast) (by simp)

/-- Claim C5 (amended): product category resolution is a total
deterministic function into the five categories, by case-SENSITIVE
substring match in the fixed priority order subway, suburban, bus, tram,
first match winning, no match yielding the other category; the same
resolution determines both the symbol and the color. -/
theorem c5_category (p : String) :
    product_symbol p = categorySymbol (product_category p) ∧
    product_hex p = categoryHex (product_category p) ∧
    (product_category p = ProductCategory.subway ↔ strContains p "subway" = true) ∧
    (product_category p = ProductCategory.suburban ↔
      (strContains p "subway" = false ∧ strContains p "suburban" = true)) ∧
    (product_category p = ProductCategory.bus ↔
      (strContains p "subway" = false ∧ strContains p "suburban" = false ∧
        strContains p "bus" = true)) ∧
    (product_category p = ProductCategory.tram ↔
      (strContains p "subway" = false ∧ strContains p "suburban" = false ∧
        strContains p "bus" = false ∧ strContains p "tram" = true)) ∧
    (product_category p = ProductCategory.other ↔
      (strContains p "subway" = false ∧ strContains p "suburban" = false ∧
        strContains p "bus" = false ∧ strContains p "tram" = false)) := by
  cases h1 : strContains p "subway" <;>
    cases h2 : strContains p "suburban" <;>
      cases h3 : strContains p "bus" <;>
        cases h4 : strContains p "tram" <;>
          simp [product_symbol, product_hex, product_category, categorySymbol, categoryHex,
            h1, h2, h3, h4]

/-- Counterexample to claim C5 as stated: the match is case-sensitive,
not case-insensitive. On the input "Subway" the claimed case-insensitive
resolution yields the subway category, but the code matches nothing and
falls through to the default, so the symbol is the rocket rather than
the subway glyph. -/
theorem c5_counterexample :
    specProductCategoryCI "Subway" = ProductCategory.subway ∧
    product_category "Subway" = ProductCategory.other ∧
    product_symbol "Subway" = "🚀" ∧
    product_symbol "Subway" ≠ categorySymbol ProductCategory.subway := by
  refine ⟨by decide, by decide, by decide, by decide⟩

/-- Claim C9: in both renderers the delay annotation is non-empty iff
delay-in-minutes is present and nonzero, and when shown it carries an
explicit sign character; a zero delay and an absent delay produce no
annotation. -/
theorem c9_delay_mark (dm : Option Int) :
    stdoutDelayText dm = tuiDelayText dm ∧
    (stdoutDelayText dm ≠ "" ↔ ∃ n, dm = some n ∧ n ≠ 0) ∧
    (∀ n, dm = some n → n ≠ 0 →
      ∃ sign digits, stdoutDelayText dm = " (" ++ (sign ++ digits) ++ "min)" ∧
        ((sign = "+" ∧ digits = toString n ∧ 0 ≤ n) ∨
          (sign = "-" ∧ digits = toString (-n) ∧ n < 0))) := by
  have hne : ∀ s : String, (" (" ++ s ++ "min)" : String) ≠ "" := by
    intro s h
    have hlen := congrArg String.length h
    rw [String.length_append, String.length_append] at hlen
    have hl2 : (" (" : String).length = 2 := rfl
    have hl4 : ("min)" : String).length = 4 := rfl
    have hl0 : ("" : String).length = 0 := rfl
    rw [hl2, hl4, hl0] at hlen
    omega
  refine ⟨rfl, ?_, ?_⟩
  · cases dm with
    | none => simp [stdoutDelayText]
    | some n =>
      by_cases hn : n = 0
      · simp [stdoutDelayText, hn]
      · simp only [stdoutDelayText, if_pos hn]
        constructor
        · intro _
          exact ⟨n, rfl, hn⟩
        · intro _
          exact hne (fmtPlus n)
  · intro n hn hnz
    subst hn
    rcases le_or_lt 0 n with hpos | hneg
    · exact ⟨ "+", toString n, by simp [stdoutDelayText, hnz, fmtPlus, hpos],
        Or.inl ⟨rfl, rfl, hpos⟩⟩
    · exact ⟨ "-", toString (-n),
        by simp [stdoutDelayText, hnz, fmtPlus, not_le.mpr hneg], Or.inr ⟨rfl, rfl, hneg⟩⟩

/-- Witness for c9_delay_mark: a delay of +2 minutes yields a
non-empty annotation. -/
theorem c9_delay_mark_witness : stdoutDelayText (some 2) ≠ "" :=
  (c9_delay_mark (some 2)).2.1.mpr ⟨2, rfl, by decide⟩

/-- Counterexample to claim C2 as stated: invoking the program without
the tui flag still selects the interactive terminal controller, because
the flag is declared with default_value "true". -/
theorem c2_counterexample :
    selectDisplay (cliTuiValue false) = DisplayKind.tuiDisplay ∧
    DisplayKind.tuiDisplay ≠ DisplayKind.stdoutDisplay := by
  refine ⟨rfl, by decide⟩

/-- Claim C2 (amended): with the tui flag present the interactive
controller runs; with the flag absent the tui option defaults to true,
so the interactive controller runs as well — the plain stdout renderer
would only be chosen for tui = false, a value the flag cannot produce. -/
theorem c2_dispatch :
    (∀ flagPresent : Bool, selectDisplay (cliTuiValue flagPresent) = DisplayKind.tuiDisplay) ∧
    selectDisplay true = DisplayKind.tuiDisplay ∧
    selectDisplay false = DisplayKind.stdoutDisplay := by
  refine ⟨?_, rfl, rfl⟩
  intro fp
  cases fp <;> rfl

/-- The eviction loop leaves exactly the final max_lines elements: it
equals dropping the excess from the front. -/
theorem trimFront_eq_drop (max_lines : Nat) (l : List String) :
    trimFront max_lines l = l.drop (l.length - max_lines) := by
  induction l with
  | nil => simp [trimFront]
  | cons x xs ih =>
    simp only [trimFront]
    by_cases h : max_lines < xs.length + 1
    · rw [if_pos h, ih]
      have hidx : (x :: xs).length - max_lines = (xs.length - max_lines) + 1 := by
        simp only [List.length_cons]
        omega
      rw [hidx, List.drop_succ_cons]
    · rw [if_neg h]
      have hidx : (x :: xs).length - max_lines = 0 := by
        simp only [List.length_cons]
        omega
      rw [hidx, List.drop_zero]

/-- The buffer never exceeds its capacity after an eviction pass. -/
theorem trimFront_length_le (max_lines : Nat) (l : List String) :
    (trimFront max_lines l).length ≤ max_lines := by
  rw [trimFront_eq_drop, List.length_drop]
  omega

/-- Folding push_line over a list of appended lines, starting from a
buffer within capacity, keeps exactly the final max_lines elements of
the concatenation. -/
theorem pushAll_eq_drop (max_lines : Nat) :
    ∀ (new st : List String), st.length ≤ max_lines →
      pushAll max_lines st new = (st ++ new).drop ((st ++ new).length - max_lines) := by
  intro new
  induction new with
  | nil =>
    intro st hst
    simp only [pushAll, List.foldl_nil, List.append_nil]
    have : st.length - max_lines = 0 := by omega
    rw [this, List.drop_zero]
  | cons l ls ih =>
    intro st hst
    have hpush : push_line max_lines st l =
        (st ++ [l]).drop ((st ++ [l]).length - max_lines) := by
      rw [push_line, trimFront_eq_drop]
    have hlen : (push_line max_lines st l).length ≤ max_lines := by
      rw [push_line]
      exact trimFront_length_le _ _
    have hstep : pushAll max_lines st (l :: ls) =
        pushAll max_lines (push_line max_lines st l) ls := rfl
    rw [hstep, ih _ hlen, hpush]
    have hz : (st ++ [l]).length - max_lines - (st ++ [l]).length = 0 := by omega
    have hsplit : List.drop ((st ++ [l]).length - max_lines) (st ++ [l]) ++ ls =
        List.drop ((st ++ [l]).length - max_lines) ((st ++ [l]) ++ ls) := by
      conv_rhs => rw [List.drop_append_eq_append_drop]
      rw [hz, List.drop_zero]
    have hassoc : st ++ l :: ls = (st ++ [l]) ++ ls := by
      rw [List.append_assoc]
      rfl
    rw [hsplit, List.drop_drop, hassoc]
    congr 1
    simp only [List.length_drop, List.length_append, List.length_cons, List.length_nil]
    omega

/-- Claim C6: appending N lines with N > max_lines through push_line
leaves exactly the most recent max_lines lines, in oldest-first order
(snapshot returns them most-recent-last, as the suffix of the appended
sequence), the buffer length is exactly max_lines, and when the buffer
is full the oldest (front) line is the one evicted by the next push. -/
theorem c6_logbuffer (max_lines : Nat) (ls : List String) (h : max_lines < ls.length) :
    snapshot (pushAll max_lines [] ls) = ls.drop (ls.length - max_lines) ∧
    (pushAll max_lines [] ls).length = max_lines ∧
    (∀ (st : List String) (l : String), st.length = max_lines → 0 < max_lines →
      push_line max_lines st l = st.tail ++ [l]) := by
  have hbase := pushAll_eq_drop max_lines ls [] (by simp)
  simp only [List.nil_append] at hbase
  refine ⟨hbase, ?_, ?_⟩
  · rw [hbase, List.length_drop]
    omega
  · intro st l hst hpos
    rw [push_line, trimFront_eq_drop]
    have hone : (st ++ [l]).length - max_lines = 1 := by
      simp only [List.length_append, List.length_cons, List.length_nil]
      omega
    rw [hone, List.drop_append_eq_append_drop]
    have : 1 - st.length = 0 := by omega
    rw [this, List.drop_zero, List.drop_one]

/-- Witness for c6_logbuffer: capacity 2, three appended lines; the
buffer keeps the last two in order, and a push onto a full buffer of
["x", "y"] evicts the oldest line "x". -/
theorem c6_logbuffer_witness :
    2 < 3 ∧ snapshot (pushAll 2 [] [ "a", "b", "c"]) = [ "b", "c"] ∧
      (pushAll 2 [] [ "a", "b", "c"]).length = 2 ∧
      push_line 2 [ "x", "y"] "z" = [ "y", "z"] := by
  have h := c6_logbuffer 2 [ "a", "b", "c"] (by decide)
  exact ⟨by decide, by simpa using h.1, h.2.1, by simpa using h.2.2 [ "x", "y"] "z" rfl (by decide)⟩

/-- Claim C10: with an empty filter set the boundary filter keeps
everything; in general a departure survives the filter iff it was in
the response and either the filter set is empty, or it has no direction
label, or its label contains at least one configured substring — so
exactly the labelled departures whose label contains none of the
substrings are removed. -/
theorem c10_filter (s : InputStop) (resp : DeparturesResponse) :
    (s.directions = [] → BvgClient.filter s resp = resp) ∧
    (∀ d : Departure,
      d ∈ (BvgClient.filter s resp).departures ↔
        d ∈ resp.departures ∧
          (s.directions = [] ∨ d.direction = none ∨
            ∃ lbl, d.direction = some lbl ∧
              ∃ f ∈ s.directions, strContains lbl f = true)) := by
  constructor
  · intro hdir
    cases resp with
    | mk deps rt =>
      simp only [BvgClient.filter]
      refine congrArg (fun x => DeparturesResponse.mk x rt) ?_
      rw [List.filter_eq_self]
      intro d _
      simp [retainDeparture, hdir]
  · intro d
    simp only [BvgClient.filter, List.mem_filter, retainDeparture]
    constructor
    · rintro ⟨hmem, hret⟩
      refine ⟨hmem, ?_⟩
      by_cases hdir : s.directions.isEmpty
      · exact Or.inl (List.isEmpty_iff.mp hdir)
      · rw [if_neg hdir] at hret
        cases hd : d.direction with
        | none => exact Or.inr (Or.inl rfl)
        | some lbl =>
          rw [hd] at hret
          rw [List.any_eq_true] at hret
          obtain ⟨f, hf, hc⟩ := hret
          exact Or.inr (Or.inr ⟨lbl, rfl, f, hf, hc⟩)
    · rintro ⟨hmem, hcase⟩
      refine ⟨hmem, ?_⟩
      by_cases hdir : s.directions.isEmpty
      · rw [if_pos hdir]
      · rw [if_neg hdir]
        rcases hcase with hempty | hnone | ⟨lbl, hlbl, f, hf, hc⟩
        · exact absurd (List.isEmpty_iff.mpr hempty) hdir
        · rw [hnone]
        · rw [hlbl, List.any_eq_true]
          exact ⟨f, hf, hc⟩

/-- Witness for c10_filter: a stop filtering on "Pankow" keeps a
departure with no direction label and one whose label contains the
substring, and an empty filter set keeps everything. -/
theorem c10_filter_witness :
    BvgClient.filter
        { id := "1", name := "S", look_ahead := 15, directions := [] }
        { departures := [depPlannedOnly], realtime_data_updated_at := none } =
      { departures := [depPlannedOnly], realtime_data_updated_at := none } ∧
    (depPlannedOnly ∈
      (BvgClient.filter
        { id := "1", name := "S", look_ahead := 15, directions := [ "Pankow"] }
        { departures := [depPlannedOnly], realtime_data_updated_at := none }).departures) := by
  constructor
  · exact (c10_filter
      { id := "1", name := "S", look_ahead := 15, directions := [] }
      { departures := [depPlannedOnly], realtime_data_updated_at := none }).1 rfl
  · exact ((c10_filter
      { id := "1", name := "S", look_ahead := 15, directions := [ "Pankow"] }
      { departures := [depPlannedOnly], realtime_data_updated_at := none }).2
        depPlannedOnly).mpr ⟨by simp, Or.inr (Or.inl rfl)⟩

/-- The event loop itself never performs a teardown action: any action
predicate that is false on renders, fetches and log lines counts zero
occurrences in the loop's action trace. -/
theorem loopSteps_countP_zero {E M : Type} (fetch : Nat → Except E M)
    (render : Nat → Except E Unit) (p : Action M → Bool)
    (hr : ∀ m, p (Action.renderCall m) = false) (hfc : p Action.fetchCall = false)
    (hl : p Action.logInfo = false) :
    ∀ (evs : List TermEvent) (model : M) (fi ri : Nat),
      List.countP p (loopSteps fetch render evs model fi ri).1 = 0 := by
  intro evs
  induction evs with
  | nil =>
    intro model fi ri
    simp [loopSteps]
  | cons ev evs ih =>
    intro model fi ri
    cases ev with
    | key code ctrl =>
      simp only [loopSteps]
      by_cases h1 : code = KeyChar.q ∨ code = KeyChar.esc
      · simp [h1]
      · rw [if_neg h1]
        by_cases h2 : code = KeyChar.c ∧ ctrl = true
        · simp [h2]
        · rw [if_neg h2]
          by_cases h3 : code = KeyChar.l
          · rw [if_pos h3]
            cases hrr : render ri with
            | error e => simp [List.countP_cons, hr, hl]
            | ok u => simp [List.countP_cons, hr, hl, ih]
          · rw [if_neg h3]
            by_cases h4 : code = KeyChar.r
            · rw [if_pos h4]
              cases hff : fetch fi with
              | error e => simp [List.countP_cons, hfc]
              | ok m2 =>
                cases hrr : render ri with
                | error e => simp [List.countP_cons, hfc, hr]
                | ok u => simp [List.countP_cons, hfc, hr, ih]
            · rw [if_neg h4]
              exact ih model fi ri
    | resize =>
      simp only [loopSteps]
      cases hrr : render ri with
      | error e => simp [List.countP_cons, hr]
      | ok u => simp [List.countP_cons, hr, ih]
    | otherEvent =>
      simp only [loopSteps]
      exact ih model fi ri

/-- Claim C3 (amended): a fetch error while the loop handles a refresh
key is propagated by the ? operator — the loop ends at once with that
error: the remaining events (quit included) are never processed, the
prior model is not re-rendered, and the loop emits no teardown action. -/
theorem c3_refresh_error {E M : Type} (fetch : Nat → Except E M)
    (render : Nat → Except E Unit) (evs : List TermEvent) (model : M) (fi ri : Nat)
    (ctrl : Bool) (e : E) (hf : fetch fi = Except.error e) :
    loopSteps fetch render (TermEvent.key KeyChar.r ctrl :: evs) model fi ri =
      ([Action.fetchCall], Outcome.err e) := by
  simp [loopSteps, hf]

/-- Witness for c3_refresh_error: a concrete loop whose fetch oracle
fails with error 7 at the pending refresh. -/
theorem c3_refresh_error_witness :
    loopSteps (fun _ => Except.error 7) exRenderOk
        [TermEvent.key KeyChar.r false] (0 : Nat) 1 1 =
      ([Action.fetchCall], Outcome.err 7) :=
  c3_refresh_error (fun _ => Except.error 7) exRenderOk [] 0 1 1 false 7 rfl

/-- Counterexample to claim C3 as stated: a full controller run whose
second fetch (the refresh) fails. The claim says the loop keeps running
on the last model; in fact the run terminates with the fetch error, the
pending quit event is never consumed, and no teardown is performed. -/
theorem c3_counterexample :
    TuiDisplay.display exFetch exRenderOk
        [TermEvent.key KeyChar.r false, TermEvent.key KeyChar.q false] =
      ([Action.enableRaw, Action.enterAlt, Action.fetchCall, Action.renderCall 0,
        Action.fetchCall], Outcome.err 7) ∧
    (Outcome.err 7 : Outcome Nat) ≠ Outcome.ok := by
  refine ⟨by decide, by decide⟩

/-- Claim C4 (amended): the teardown pair (disable raw mode, leave the
alternate screen) runs exactly once each when the controller exits via a
quit event, and does not run at all when the controller exits because a
fetch or render error was propagated — including errors on the initial
load. -/
theorem c4_teardown {E M : Type} (fetch : Nat → Except E M)
    (render : Nat → Except E Unit) (events : List TermEvent) :
    ((TuiDisplay.display fetch render events).2 = Outcome.ok →
      List.countP isDisableRaw (TuiDisplay.display fetch render events).1 = 1 ∧
      List.countP isLeaveAlt (TuiDisplay.display fetch render events).1 = 1) ∧
    (∀ e, (TuiDisplay.display fetch render events).2 = Outcome.err e →
      List.countP isDisableRaw (TuiDisplay.display fetch render events).1 = 0 ∧
      List.countP isLeaveAlt (TuiDisplay.display fetch render events).1 = 0) := by
  have hz1 := loopSteps_countP_zero fetch render isDisableRaw
    (fun m => rfl) rfl rfl events
  have hz2 := loopSteps_countP_zero fetch render isLeaveAlt
    (fun m => rfl) rfl rfl events
  simp only [TuiDisplay.display]
  cases h0 : fetch 0 with
  | error e0 =>
    constructor
    · intro hok
      simp at hok
    · intro e _
      constructor <;>
        simp [List.countP_append, List.countP_cons, isDisableRaw, isLeaveAlt]
  | ok m0 =>
    cases hr0 : render 0 with
    | error e1 =>
      constructor
      · intro hok
        simp at hok
      · intro e _
        constructor <;>
          simp [List.countP_append, List.countP_cons, isDisableRaw, isLeaveAlt]
    | ok u =>
      cases hout : (loopSteps fetch render events m0 1 1).2 with
      | ok =>
        constructor
        · intro _
          constructor <;>
            simp [hout, List.countP_append, List.countP_cons, isDisableRaw, isLeaveAlt,
              hz1 m0 1 1, hz2 m0 1 1]
        · intro e he
          simp [hout] at he
      | err e2 =>
        constructor
        · intro hok
          simp [hout] at hok
        · intro e _
          constructor <;>
            simp [hout, List.countP_append, List.countP_cons, isDisableRaw, isLeaveAlt,
              hz1 m0 1 1, hz2 m0 1 1]
      | blocked =>
        constructor
        · intro hok
          simp [hout] at hok
        · intro e he
          simp [hout] at he

/-- Witness for c4_teardown: a run quit with the q key performs each
teardown action exactly once. -/
theorem c4_teardown_witness :
    List.countP isDisableRaw
        (TuiDisplay.display exFetchOk exRenderOk [TermEvent.key KeyChar.q false]).1 = 1 ∧
    List.countP isLeaveAlt
        (TuiDisplay.display exFetchOk exRenderOk [TermEvent.key KeyChar.q false]).1 = 1 :=
  (c4_teardown exFetchOk exRenderOk [TermEvent.key KeyChar.q false]).1 (by decide)

/-- Counterexample to claim C4 as stated: a run that exits the event
loop through a refresh fetch error performs the teardown zero times,
not exactly once. -/
theorem c4_counterexample :
    (TuiDisplay.display exFetch exRenderOk [TermEvent.key KeyChar.r false]).2 =
      Outcome.err 7 ∧
    List.countP isDisableRaw
        (TuiDisplay.display exFetch exRenderOk [TermEvent.key KeyChar.r false]).1 = 0 ∧
    List.countP isLeaveAlt
        (TuiDisplay.display exFetch exRenderOk [TermEvent.key KeyChar.r false]).1 = 0 ∧
    (0 : Nat) ≠ 1 := by
  refine ⟨by decide, by decide, by decide, by decide⟩

end BVG
